import Mathlib

/-!
# Verification of the libbpf-sys build script (`build.rs`)

A shallow embedding of the decision logic of `build.rs`: the feature-flag
driven link-mode resolution, the event trace produced by `main` (builder
invocations, tool checks and emitted cargo directives, in program order),
the host-triple computation used by `make_elfutils`, the CFLAGS filtering
for the elfutils configure step, and the `pkg_check` tool probe.

External process execution, file locking and the filesystem are outside the
embedding; a run is modelled under the assumption that every external step
succeeds (the script aborts on the first failure, so the successful trace
is the full trace).  Each definition mirrors the corresponding function of
`build.rs`.
-/

namespace LibbpfSys

/-- The cargo feature flags consulted by `build.rs` (`cfg!(feature = ...)`). -/
structure Features where
  vendoredLibbpf : Bool
  vendoredLibelf : Bool
  vendoredZlib : Bool
  staticLibbpf : Bool
  staticLibelf : Bool
  staticZlib : Bool
  novendor : Bool
  bindgen : Bool
deriving DecidableEq, Repr

/-- The ambient build environment read by `build.rs` (`env::var` /
`env::var_os`).  All compulsory variables are assumed present (the script
panics otherwise); `LD_LIBRARY_PATH` is optional. -/
structure Env where
  targetOs : String
  targetArch : String
  targetVendor : String
  targetEnv : String
  srcDir : String
  outDir : String
  ldLibraryPath : Option String
deriving DecidableEq, Repr

/-- Model of `build_android()`: the target OS string equals `"android"`. -/
def build_android (e : Env) : Bool :=
  e.targetOs == "android"

/-- The per-library link-mode decision computed at the top of `main`
(lines 123-132 of `build.rs`). -/
structure LinkModes where
  vendoredLibbpf : Bool
  vendoredLibelf : Bool
  vendoredZlib : Bool
  staticLibbpf : Bool
  staticLibelf : Bool
  staticZlib : Bool
deriving DecidableEq, Repr

/-- The link-mode resolver: each caller-supplied flag is or-ed with the
`android` predicate, exactly as in `main`. -/
def resolve_link_modes (f : Features) (android : Bool) : LinkModes where
  vendoredLibbpf := f.vendoredLibbpf || android
  vendoredLibelf := f.vendoredLibelf || android
  vendoredZlib := f.vendoredZlib || android
  staticLibbpf := f.staticLibbpf || android
  staticLibelf := f.staticLibelf || android
  staticZlib := f.staticZlib || android

/-- Observable events of one run of `main`, in program order: stdout lines
(informational prints and `cargo:` directives), tool-availability probes and
builder invocations. -/
inductive Event where
  /-- The step `generate_bindings` ran (feature `bindgen`). -/
  | generateBindings
  /-- A probe `pkg_check(pkg)` for an external tool. -/
  | pkgCheck (pkg : String)
  /-- Builder `make_zlib` was invoked. -/
  | makeZlib
  /-- Builder `make_elfutils` was invoked. -/
  | makeElfutils
  /-- Builder `make_libbpf` was invoked. -/
  | makeLibbpf
  /-- Directive `cargo:warning=msg`. -/
  | warning (msg : String)
  /-- Directive `cargo:rustc-link-search=native=path`. -/
  | linkSearch (path : String)
  /-- Directive `cargo:rustc-link-lib=[static=]name`. -/
  | linkLib (static : Bool) (name : String)
  /-- Directive `cargo:include=path`. -/
  | includeDir (path : String)
  /-- Directive `cargo:rerun-if-env-changed=var`. -/
  | rerunIfEnvChanged (var : String)
  /-- A plain informational `println!`. -/
  | info (msg : String)
deriving DecidableEq, Repr

/-- Discriminator: builder invocations. -/
def Event.isBuilder : Event → Bool
  | .makeZlib => true
  | .makeElfutils => true
  | .makeLibbpf => true
  | _ => false

/-- Discriminator: `cargo:rustc-link-lib` directives. -/
def Event.isLinkLib : Event → Bool
  | .linkLib _ _ => true
  | _ => false

/-- Discriminator: `cargo:rustc-link-search` directives. -/
def Event.isLinkSearch : Event → Bool
  | .linkSearch _ => true
  | _ => false

/-- Discriminator: `cargo:warning` lines. -/
def Event.isWarning : Event → Bool
  | .warning _ => true
  | _ => false

/-- The deprecation notice printed on the `novendor` path. -/
def deprecation_warning : String :=
  "the `novendor` feature of `libbpf-sys` is deprecated; build without features instead"

/-- The six `Using feature ...` informational lines of `main`. -/
def feature_infos (m : LinkModes) : List Event :=
  [Event.info ("Using feature vendored-libbpf=" ++ toString m.vendoredLibbpf),
   Event.info ("Using feature vendored-libelf=" ++ toString m.vendoredLibelf),
   Event.info ("Using feature vendored-zlib=" ++ toString m.vendoredZlib),
   Event.info ("Using feature static-libbpf=" ++ toString m.staticLibbpf),
   Event.info ("Using feature static-libelf=" ++ toString m.staticLibelf),
   Event.info ("Using feature static-zlib=" ++ toString m.staticZlib)]

/-- The tool probes run when libelf is vendored (lines 149-156). -/
def elfutils_tool_checks : List Event :=
  [Event.pkgCheck "autoreconf", Event.pkgCheck "autopoint", Event.pkgCheck "flex",
   Event.pkgCheck "bison", Event.pkgCheck "gawk", Event.pkgCheck "aclocal"]

/-- Model of the Rust `str::split` on a colon, over the character list: the (possibly empty)
segments between colons.  `""` splits to `[""]`, `":"` to `["", ""]`. -/
def split_colon : List Char → List (List Char)
  | [] => [[]]
  | c :: cs =>
    if c = ':' then [] :: split_colon cs
    else
      match split_colon cs with
      | [] => [[c]]
      | t :: ts => (c :: t) :: ts

/-- The entries of the colon-separated `LD_LIBRARY_PATH` value. -/
def ld_entries (s : String) : List String :=
  (split_colon s.data).map String.mk

/-- The re-emission of `LD_LIBRARY_PATH` entries at the end of `main`:
split on `:`, skip empty entries, one link-search directive each. -/
def ld_search_events : Option String → List Event
  | none => []
  | some s => ((ld_entries s).filter (fun p => p ≠ "")).map Event.linkSearch

/-- The event trace of `main`, assuming every external step succeeds.
Mirrors `build.rs` line by line: binding generation, link-mode resolution
and its info lines, the deprecated `novendor` short-circuit, tool checks,
the three builders in sequence, and the final directives. -/
def main_trace (f : Features) (e : Env) : List Event :=
  let bindings := if f.bindgen then [Event.generateBindings] else []
  let android := build_android e
  let m := resolve_link_modes f android
  bindings ++ feature_infos m ++
  (if f.novendor then
    [Event.warning deprecation_warning,
     Event.linkLib m.staticLibbpf "bpf"]
  else
    (if m.vendoredLibelf then elfutils_tool_checks else []) ++
    (if m.vendoredLibbpf || m.vendoredLibelf || m.vendoredZlib then
      [Event.pkgCheck "pkg-config", Event.rerunIfEnvChanged "LIBBPF_SYS_EXTRA_CFLAGS"]
     else []) ++
    (if m.vendoredZlib then [Event.makeZlib] else []) ++
    (if m.vendoredLibelf then [Event.makeElfutils] else []) ++
    (if m.vendoredLibbpf then [Event.makeLibbpf] else []) ++
    [Event.linkSearch e.outDir,
     Event.linkLib m.staticLibelf "elf",
     Event.linkLib m.staticZlib "z",
     Event.linkLib m.staticLibbpf "bpf",
     Event.includeDir (e.outDir ++ "/include"),
     Event.rerunIfEnvChanged "LD_LIBRARY_PATH"] ++
    ld_search_events e.ldLibraryPath)

/-- Model of `pkg_check`: the outcome of probing for tool `pkg`, given the
spawn result (`none` when the process could not be started at all, `some c`
when it started and exited with code `c`).  A failed spawn panics with a
message naming the tool; any started process is accepted. -/
def pkg_check (pkg : String) : Option Int → Except String Unit
  | none =>
    Except.error (pkg ++ " is required to compile libbpf-sys with the selected set of features")
  | some _ => Except.ok ()

/-- Whitespace predicate used to model the Rust `str::split_whitespace`
(ASCII whitespace; compiler flag strings are ASCII). -/
def isWS (c : Char) : Bool :=
  c.isWhitespace

/-- Worker for `split_whitespace`: `acc` holds the reversed characters of
the token currently being read. -/
def split_whitespace_aux : List Char → List Char → List (List Char)
  | [], acc => if acc.isEmpty then [] else [acc.reverse]
  | c :: cs, acc =>
    if isWS c then
      if acc.isEmpty then split_whitespace_aux cs []
      else acc.reverse :: split_whitespace_aux cs []
    else split_whitespace_aux cs (c :: acc)

/-- Model of the Rust `str::split_whitespace` on the character list: maximal runs of
non-whitespace characters, with no empty tokens. -/
def split_whitespace (l : List Char) : List (List Char) :=
  split_whitespace_aux l []

/-- The CFLAGS/CXXFLAGS value `make_elfutils` hands to the elfutils
configure step (lines 291-309 of `build.rs`): the ambient compiler flags
split on whitespace, the token `-static` dropped (compilation fails with
it), each surviving token re-emitted with a leading space; then, when the
build host is aarch64, ` -Wno-error=stringop-overflow`; then
` -I{src_dir}/zlib/`. -/
def elfutils_cflags (ambient srcDir : List Char) (aarch64 : Bool) : List Char :=
  (((split_whitespace ambient).filter (fun t => t ≠ "-static".data)).map
      (fun t => ' ' :: t)).flatten ++
  (if aarch64 then " -Wno-error=stringop-overflow".data else []) ++
  (' ' :: ("-I".data ++ srcDir ++ "/zlib/".data))

/-- Architecture normalization inside `make_elfutils` (lines 333-337). -/
def normalize_arch (arch : String) : String :=
  if arch = "riscv64gc" then "riscv64"
  else if arch = "riscv32gc" then "riscv32"
  else arch

/-- The `--host` triple passed to the elfutils configure script
(lines 330-342): `{arch}-{vendor}-{os}-{env}` with the arch normalized. -/
def host_triple (arch vendor os env : String) : String :=
  normalize_arch arch ++ "-" ++ vendor ++ "-" ++ os ++ "-" ++ env

/-! ## Theorems -/

/-! ### Helper lemmas about the trace discriminators -/

theorem isBuilder_iff (ev : Event) :
    ev.isBuilder = true ↔
      ev = Event.makeZlib ∨ ev = Event.makeElfutils ∨ ev = Event.makeLibbpf := by
  cases ev <;> simp [Event.isBuilder]

theorem filter_isBuilder_feature_infos (m : LinkModes) :
    (feature_infos m).filter Event.isBuilder = [] := rfl

theorem filter_isBuilder_tool_checks :
    elfutils_tool_checks.filter Event.isBuilder = [] := rfl

theorem filter_isBuilder_map_linkSearch (l : List String) :
    (l.map Event.linkSearch).filter Event.isBuilder = [] := by
  induction l with
  | nil => rfl
  | cons a t ih => simp [List.filter_cons, Event.isBuilder, ih]

theorem filter_isBuilder_ld_search (o : Option String) :
    (ld_search_events o).filter Event.isBuilder = [] := by
  cases o with
  | none => rfl
  | some s => exact filter_isBuilder_map_linkSearch _

/-- The builder invocations of a run, in order: `make_zlib` when zlib is
vendored, then `make_elfutils` when libelf is vendored, then `make_libbpf`
when libbpf is vendored — and nothing on the `novendor` short-circuit. -/
theorem filter_isBuilder_main_trace (f : Features) (e : Env) :
    (main_trace f e).filter Event.isBuilder =
      if f.novendor then []
      else
        (if (resolve_link_modes f (build_android e)).vendoredZlib
          then [Event.makeZlib] else []) ++
        (if (resolve_link_modes f (build_android e)).vendoredLibelf
          then [Event.makeElfutils] else []) ++
        (if (resolve_link_modes f (build_android e)).vendoredLibbpf
          then [Event.makeLibbpf] else []) := by
  unfold main_trace
  cases hnv : f.novendor <;>
    cases hbg : f.bindgen <;>
      simp [List.filter_append, filter_isBuilder_feature_infos, filter_isBuilder_tool_checks,
        filter_isBuilder_ld_search, apply_ite (List.filter Event.isBuilder),
        List.filter_cons, Event.isBuilder]

theorem filter_isLinkLib_feature_infos (m : LinkModes) :
    (feature_infos m).filter Event.isLinkLib = [] := rfl

theorem filter_isLinkLib_tool_checks :
    elfutils_tool_checks.filter Event.isLinkLib = [] := rfl

theorem filter_isLinkLib_map_linkSearch (l : List String) :
    (l.map Event.linkSearch).filter Event.isLinkLib = [] := by
  induction l with
  | nil => rfl
  | cons a t ih => simp [List.filter_cons, Event.isLinkLib, ih]

theorem filter_isLinkLib_ld_search (o : Option String) :
    (ld_search_events o).filter Event.isLinkLib = [] := by
  cases o with
  | none => rfl
  | some s => exact filter_isLinkLib_map_linkSearch _

/-- The `cargo:rustc-link-lib` directives of a run: only `bpf` on the
`novendor` short-circuit, otherwise `elf`, `z`, `bpf` in that order, each
static exactly when the resolved static flag is set. -/
theorem filter_isLinkLib_main_trace (f : Features) (e : Env) :
    (main_trace f e).filter Event.isLinkLib =
      if f.novendor then
        [Event.linkLib (resolve_link_modes f (build_android e)).staticLibbpf "bpf"]
      else
        [Event.linkLib (resolve_link_modes f (build_android e)).staticLibelf "elf",
         Event.linkLib (resolve_link_modes f (build_android e)).staticZlib "z",
         Event.linkLib (resolve_link_modes f (build_android e)).staticLibbpf "bpf"] := by
  unfold main_trace
  cases hnv : f.novendor <;>
    cases hbg : f.bindgen <;>
      simp [List.filter_append, filter_isLinkLib_feature_infos, filter_isLinkLib_tool_checks,
        filter_isLinkLib_ld_search, apply_ite (List.filter Event.isLinkLib),
        List.filter_cons, Event.isLinkLib]

theorem filter_isLinkSearch_feature_infos (m : LinkModes) :
    (feature_infos m).filter Event.isLinkSearch = [] := rfl

theorem filter_isLinkSearch_tool_checks :
    elfutils_tool_checks.filter Event.isLinkSearch = [] := rfl

theorem filter_isLinkSearch_map_linkSearch (l : List String) :
    (l.map Event.linkSearch).filter Event.isLinkSearch = l.map Event.linkSearch := by
  induction l with
  | nil => rfl
  | cons a t ih => simp [List.filter_cons, Event.isLinkSearch, ih]

theorem filter_isLinkSearch_ld_search (o : Option String) :
    (ld_search_events o).filter Event.isLinkSearch = ld_search_events o := by
  cases o with
  | none => rfl
  | some s => exact filter_isLinkSearch_map_linkSearch _

/-- The `cargo:rustc-link-search` directives of a run: none on the
`novendor` short-circuit; otherwise the output directory followed by the
non-empty `LD_LIBRARY_PATH` entries. -/
theorem filter_isLinkSearch_main_trace (f : Features) (e : Env) :
    (main_trace f e).filter Event.isLinkSearch =
      if f.novendor then []
      else Event.linkSearch e.outDir :: ld_search_events e.ldLibraryPath := by
  unfold main_trace
  cases hnv : f.novendor <;>
    cases hbg : f.bindgen <;>
      simp [List.filter_append, filter_isLinkSearch_feature_infos,
        filter_isLinkSearch_tool_checks, filter_isLinkSearch_ld_search,
        apply_ite (List.filter Event.isLinkSearch), List.filter_cons, Event.isLinkSearch]

theorem filter_isWarning_feature_infos (m : LinkModes) :
    (feature_infos m).filter Event.isWarning = [] := rfl

theorem filter_isWarning_tool_checks :
    elfutils_tool_checks.filter Event.isWarning = [] := rfl

theorem filter_isWarning_map_linkSearch (l : List String) :
    (l.map Event.linkSearch).filter Event.isWarning = [] := by
  induction l with
  | nil => rfl
  | cons a t ih => simp [List.filter_cons, Event.isWarning, ih]

theorem filter_isWarning_ld_search (o : Option String) :
    (ld_search_events o).filter Event.isWarning = [] := by
  cases o with
  | none => rfl
  | some s => exact filter_isWarning_map_linkSearch _

/-- The `cargo:warning` lines of a run: exactly the one deprecation notice
on the `novendor` short-circuit, none otherwise. -/
theorem filter_isWarning_main_trace (f : Features) (e : Env) :
    (main_trace f e).filter Event.isWarning =
      if f.novendor then [Event.warning deprecation_warning] else [] := by
  unfold main_trace
  cases hnv : f.novendor <;>
    cases hbg : f.bindgen <;>
      simp [List.filter_append, filter_isWarning_feature_infos, filter_isWarning_tool_checks,
        filter_isWarning_ld_search, apply_ite (List.filter Event.isWarning),
        List.filter_cons, Event.isWarning]

/-- C1: for every run whose target OS is `"android"`, the link-mode
resolution yields vendor=true and static=true for all three libraries
(zlib, libelf, libbpf), regardless of the caller-supplied `vendored-*`
and `static-*` feature flags. -/
theorem android_forces_all_vendored_static (f : Features) (e : Env)
    (h : e.targetOs = "android") :
    resolve_link_modes f (build_android e) =
      ⟨true, true, true, true, true, true⟩ := by
  simp [resolve_link_modes, build_android, h]

/-- Witness for C1 at a concrete all-false flag set and android target. -/
theorem android_forces_all_vendored_static_witness :
    resolve_link_modes
        ⟨false, false, false, false, false, false, false, false⟩
        (build_android ⟨"android", "x86_64", "unknown", "gnu", "/src", "/out", none⟩) =
      ⟨true, true, true, true, true, true⟩ :=
  android_forces_all_vendored_static
    ⟨false, false, false, false, false, false, false, false⟩
    ⟨"android", "x86_64", "unknown", "gnu", "/src", "/out", none⟩ rfl

/-- C2: for every run whose target OS is not `"android"`, the link-mode
resolution returns exactly the caller-supplied `vendored-*` and `static-*`
flags, unchanged. -/
theorem non_android_keeps_caller_flags (f : Features) (e : Env)
    (h : e.targetOs ≠ "android") :
    resolve_link_modes f (build_android e) =
      ⟨f.vendoredLibbpf, f.vendoredLibelf, f.vendoredZlib,
       f.staticLibbpf, f.staticLibelf, f.staticZlib⟩ := by
  simp [resolve_link_modes, build_android, h]

/-- Witness for C2 at a concrete mixed flag set and linux target. -/
theorem non_android_keeps_caller_flags_witness :
    resolve_link_modes
        ⟨true, false, true, false, true, false, false, false⟩
        (build_android ⟨"linux", "x86_64", "unknown", "gnu", "/src", "/out", none⟩) =
      ⟨true, false, true, false, true, false⟩ :=
  non_android_keeps_caller_flags
    ⟨true, false, true, false, true, false, false, false⟩
    ⟨"linux", "x86_64", "unknown", "gnu", "/src", "/out", none⟩ (by decide)

/-- C5: the host-triple computation is a pure function of the four target
strings: identical inputs give identical output; `riscv64gc` normalizes to
`riscv64`, `riscv32gc` to `riscv32`, and every other arch string passes
through unchanged, the triple being `{arch}-{vendor}-{os}-{env}`. -/
theorem host_triple_pure_and_normalizes :
    (∀ a v o en, host_triple a v o en = host_triple a v o en) ∧
    normalize_arch "riscv64gc" = "riscv64" ∧
    normalize_arch "riscv32gc" = "riscv32" ∧
    (∀ a, a ≠ "riscv64gc" → a ≠ "riscv32gc" → normalize_arch a = a) ∧
    (∀ v o en, host_triple "riscv64gc" v o en =
      "riscv64" ++ "-" ++ v ++ "-" ++ o ++ "-" ++ en) := by
  refine ⟨fun a v o en => rfl, rfl, rfl, ?_, fun v o en => rfl⟩
  intro a h64 h32
  simp [normalize_arch, h64, h32]

/-- Witness for C5: the pass-through branch applied at `x86_64`. -/
theorem host_triple_pure_and_normalizes_witness :
    normalize_arch "x86_64" = "x86_64" :=
  host_triple_pure_and_normalizes.2.2.2.1 "x86_64" (by decide) (by decide)

/-- C3 counterexample: in the all-flags-false, non-android scenario the
first two parts of the claim hold (no builder runs, exactly one dynamic link
directive per library), but a link-search directive pointing at the output
directory IS emitted (`build.rs` emits it unconditionally, line 189), so
the claim as stated is false at this input. -/
theorem scenario_a_outdir_search_counterexample :
    ((main_trace ⟨false, false, false, false, false, false, false, false⟩
        ⟨"linux", "x86_64", "unknown", "gnu", "/src", "/out", none⟩).filter
        Event.isBuilder = [] ∧
     (main_trace ⟨false, false, false, false, false, false, false, false⟩
        ⟨"linux", "x86_64", "unknown", "gnu", "/src", "/out", none⟩).filter
        Event.isLinkLib =
       [Event.linkLib false "elf", Event.linkLib false "z", Event.linkLib false "bpf"]) ∧
    Event.linkSearch "/out" ∈
      main_trace ⟨false, false, false, false, false, false, false, false⟩
        ⟨"linux", "x86_64", "unknown", "gnu", "/src", "/out", none⟩ := by
  decide

/-- C3 (amended): with all vendored and static flags false, `novendor`
unset and a non-android target, no builder is invoked and exactly one
link directive per library is emitted, all three dynamic — but a
link-search directive pointing at the output directory is emitted
unconditionally. -/
theorem scenario_a_amended (f : Features) (e : Env)
    (hvb : f.vendoredLibbpf = false) (hve : f.vendoredLibelf = false)
    (hvz : f.vendoredZlib = false) (hsb : f.staticLibbpf = false)
    (hse : f.staticLibelf = false) (hsz : f.staticZlib = false)
    (hnv : f.novendor = false) (hos : e.targetOs ≠ "android") :
    (main_trace f e).filter Event.isBuilder = [] ∧
    (main_trace f e).filter Event.isLinkLib =
      [Event.linkLib false "elf", Event.linkLib false "z", Event.linkLib false "bpf"] ∧
    Event.linkSearch e.outDir ∈ main_trace f e := by
  have hand : build_android e = false := by
    simp [build_android, hos]
  refine ⟨?_, ?_, ?_⟩
  · rw [filter_isBuilder_main_trace]
    simp [hnv, resolve_link_modes, hand, hvb, hve, hvz]
  · rw [filter_isLinkLib_main_trace]
    simp [hnv, resolve_link_modes, hand, hsb, hse, hsz]
  · have h := filter_isLinkSearch_main_trace f e
    rw [hnv, if_neg (by simp)] at h
    have hmem : Event.linkSearch e.outDir ∈ (main_trace f e).filter Event.isLinkSearch := by
      rw [h]
      exact List.mem_cons_self _ _
    exact List.mem_of_mem_filter hmem

/-- Witness for C3 (amended): the output-directory link-search directive
is present in the concrete all-flags-false linux run. -/
theorem scenario_a_amended_witness :
    Event.linkSearch "/out" ∈
      main_trace ⟨false, false, false, false, false, false, false, false⟩
        ⟨"linux", "x86_64", "unknown", "gnu", "/src", "/out", none⟩ :=
  (scenario_a_amended
    ⟨false, false, false, false, false, false, false, false⟩
    ⟨"linux", "x86_64", "unknown", "gnu", "/src", "/out", none⟩
    rfl rfl rfl rfl rfl rfl rfl (by decide)).2.2

/-- C4 counterexample: with only `vendored-libelf` enabled (non-android,
no other flags), `make_elfutils` is invoked although `make_zlib` never runs
in that run, so "the ELF-access builder is never invoked before the
compression builder has completed successfully" is false as stated. -/
theorem elfutils_without_zlib_counterexample :
    Event.makeElfutils ∈
      main_trace ⟨false, true, false, false, false, false, false, false⟩
        ⟨"linux", "x86_64", "unknown", "gnu", "/src", "/out", none⟩ ∧
    Event.makeZlib ∉
      main_trace ⟨false, true, false, false, false, false, false, false⟩
        ⟨"linux", "x86_64", "unknown", "gnu", "/src", "/out", none⟩ := by
  decide

/-- C4 (amended): within any single run the builder invocations form a
subsequence of `make_zlib`, `make_elfutils`, `make_libbpf` in that order:
whenever two builders both run, the dependency-earlier one is invoked
first (and each runs at most once) — though a later builder may run
without the earlier ones when the earlier libraries are not vendored. -/
theorem builders_in_dependency_order (f : Features) (e : Env) :
    List.Sublist ((main_trace f e).filter Event.isBuilder)
      [Event.makeZlib, Event.makeElfutils, Event.makeLibbpf] := by
  rw [filter_isBuilder_main_trace]
  split_ifs <;> decide

/-- C6: with the deprecated `novendor` flag set, no builder runs, the only
link directive is a single one for `bpf` (static iff the resolved static
flag), no link-search directive is emitted, exactly one deprecation
warning is produced, and the run ends immediately after the `bpf`
directive (it is the last event of the trace). -/
theorem novendor_short_circuit (f : Features) (e : Env) (hnv : f.novendor = true) :
    (main_trace f e).filter Event.isBuilder = [] ∧
    (main_trace f e).filter Event.isLinkLib =
      [Event.linkLib (resolve_link_modes f (build_android e)).staticLibbpf "bpf"] ∧
    (main_trace f e).filter Event.isLinkSearch = [] ∧
    (main_trace f e).filter Event.isWarning = [Event.warning deprecation_warning] ∧
    (main_trace f e).getLast? =
      some (Event.linkLib (resolve_link_modes f (build_android e)).staticLibbpf "bpf") := by
  refine ⟨?_, ?_, ?_, ?_, ?_⟩
  · rw [filter_isBuilder_main_trace, if_pos hnv]
  · rw [filter_isLinkLib_main_trace, if_pos hnv]
  · rw [filter_isLinkSearch_main_trace, if_pos hnv]
  · rw [filter_isWarning_main_trace, if_pos hnv]
  · unfold main_trace
    rw [hnv]
    rw [List.append_assoc, List.getLast?_append_of_ne_nil _ (by simp),
      List.getLast?_append_of_ne_nil _ (by simp)]
    rfl

/-- Witness for C6 at a concrete novendor run. -/
theorem novendor_short_circuit_witness :
    (main_trace ⟨false, false, false, false, false, false, true, false⟩
        ⟨"linux", "x86_64", "unknown", "gnu", "/src", "/out", none⟩).filter
      Event.isLinkLib =
      [Event.linkLib
        (resolve_link_modes ⟨false, false, false, false, false, false, true, false⟩
          (build_android ⟨"linux", "x86_64", "unknown", "gnu", "/src", "/out", none⟩)).staticLibbpf
        "bpf"] :=
  (novendor_short_circuit
    ⟨false, false, false, false, false, false, true, false⟩
    ⟨"linux", "x86_64", "unknown", "gnu", "/src", "/out", none⟩ rfl).2.1

/-- C8 counterexample: with `LD_LIBRARY_PATH=":"`, the empty string is an
entry of the colon-separated list, yet no link-search directive for it is
emitted (the code skips empty entries), so "each entry of the list is
re-emitted" is false as stated. -/
theorem ld_empty_entry_skipped_counterexample :
    "" ∈ ld_entries ":" ∧
    Event.linkSearch "" ∉
      main_trace ⟨false, false, false, false, false, false, false, false⟩
        ⟨"linux", "x86_64", "unknown", "gnu", "/src", "/out", some ":"⟩ := by
  decide

/-- C8 (amended): on a non-`novendor` run with `LD_LIBRARY_PATH` set, the
emitted link-search directives are exactly the output directory plus every
NON-EMPTY entry of the colon-separated list; empty entries are skipped. -/
theorem ld_entries_emitted (f : Features) (e : Env) (s : String)
    (hnv : f.novendor = false) (hld : e.ldLibraryPath = some s) (p : String) :
    Event.linkSearch p ∈ main_trace f e ↔
      p = e.outDir ∨ (p ∈ ld_entries s ∧ p ≠ "") := by
  have h1 : Event.linkSearch p ∈ main_trace f e ↔
      Event.linkSearch p ∈ (main_trace f e).filter Event.isLinkSearch := by
    rw [List.mem_filter]
    simp [Event.isLinkSearch]
  rw [h1, filter_isLinkSearch_main_trace, hnv, if_neg (by simp), hld]
  simp only [ld_search_events, List.mem_cons, List.mem_map, List.mem_filter,
    Event.linkSearch.injEq, decide_eq_true_eq]
  constructor
  · rintro (hp | ⟨x, ⟨hx1, hx2⟩, hx3⟩)
    · exact Or.inl hp
    · exact Or.inr ⟨hx3 ▸ hx1, hx3 ▸ hx2⟩
  · rintro (hp | ⟨hp1, hp2⟩)
    · exact Or.inl hp
    · exact Or.inr ⟨p, ⟨hp1, hp2⟩, rfl⟩

/-- Witness for C8 (amended): with `LD_LIBRARY_PATH="a::b"`, the entry `a`
is re-emitted as a link-search directive. -/
theorem ld_entries_emitted_witness :
    Event.linkSearch "a" ∈
      main_trace ⟨false, false, false, false, false, false, false, false⟩
        ⟨"linux", "x86_64", "unknown", "gnu", "/src", "/out", some "a::b"⟩ :=
  (ld_entries_emitted
    ⟨false, false, false, false, false, false, false, false⟩
    ⟨"linux", "x86_64", "unknown", "gnu", "/src", "/out", some "a::b"⟩
    "a::b" rfl rfl "a").mpr (Or.inr ⟨by decide, by decide⟩)

/-- Sanity check that `ld_entries` evaluates as the Rust split on colons:
empty string and both segments appear for `"a::b"`. -/
theorem ld_entries_eval : ld_entries "a::b" = ["a", "", "b"] := by decide

/-- C10: when the `bindgen` feature is enabled, binding generation is the
very first event of the run — in particular it happens even on runs where
the deprecated `novendor` flag is set and the run returns right after the
`bpf` link directive. -/
theorem bindgen_runs_before_novendor_check (f : Features) (e : Env)
    (hbg : f.bindgen = true) (hnv : f.novendor = true) :
    (main_trace f e).head? = some Event.generateBindings ∧
    Event.generateBindings ∈ main_trace f e := by
  unfold main_trace
  rw [hbg, hnv]
  simp

/-- Witness for C10 at a concrete bindgen+novendor run. -/
theorem bindgen_runs_before_novendor_check_witness :
    (main_trace ⟨false, false, false, false, false, false, true, true⟩
        ⟨"linux", "x86_64", "unknown", "gnu", "/src", "/out", none⟩).head? =
      some Event.generateBindings :=
  (bindgen_runs_before_novendor_check
    ⟨false, false, false, false, false, false, true, true⟩
    ⟨"linux", "x86_64", "unknown", "gnu", "/src", "/out", none⟩ rfl rfl).1

/-! ### Helper lemmas for the whitespace tokenizer -/

theorem split_whitespace_aux_nonws (t : List Char) :
    ∀ (r acc : List Char), (∀ c ∈ t, isWS c = false) →
      split_whitespace_aux (t ++ r) acc = split_whitespace_aux r (t.reverse ++ acc) := by
  induction t with
  | nil =>
    intro r acc _
    simp
  | cons c t ih =>
    intro r acc h
    have hc : isWS c = false := h c (List.mem_cons_self _ _)
    simp only [List.cons_append, split_whitespace_aux, hc, Bool.false_eq_true, if_false,
      List.append_eq]
    rw [ih r (c :: acc) (fun c' hc' => h c' (List.mem_cons_of_mem _ hc'))]
    rw [List.reverse_cons, List.append_assoc, List.singleton_append]

theorem split_whitespace_aux_sep (r acc : List Char)
    (hr : r = [] ∨ ∃ c r', r = c :: r' ∧ isWS c = true) (hacc : acc ≠ []) :
    split_whitespace_aux r acc = acc.reverse :: split_whitespace_aux r [] := by
  rcases hr with rfl | ⟨c, r', rfl, hc⟩
  · simp [split_whitespace_aux, List.isEmpty_iff, hacc]
  · simp [split_whitespace_aux, hc, List.isEmpty_iff, hacc]

/-- Re-assembling whitespace-free, non-empty tokens with a leading space
each and tokenizing again gives back exactly the tokens. -/
theorem split_whitespace_chunks (chunks : List (List Char))
    (h : ∀ t ∈ chunks, t ≠ [] ∧ ∀ c ∈ t, isWS c = false) :
    split_whitespace ((chunks.map (fun t => ' ' :: t)).flatten) = chunks := by
  induction chunks with
  | nil => rfl
  | cons t ts ih =>
    obtain ⟨ht, hws⟩ := h t (List.mem_cons_self _ _)
    have hrest : ∀ u ∈ ts, u ≠ [] ∧ ∀ c ∈ u, isWS c = false :=
      fun u hu => h u (List.mem_cons_of_mem _ hu)
    have hshape : (ts.map (fun t => ' ' :: t)).flatten = [] ∨
        ∃ c r', (ts.map (fun t => ' ' :: t)).flatten = c :: r' ∧ isWS c = true := by
      cases ts with
      | nil => exact Or.inl rfl
      | cons u us =>
        exact Or.inr ⟨' ', u ++ (us.map (fun t => ' ' :: t)).flatten, by simp, by decide⟩
    show split_whitespace_aux _ [] = _
    simp only [List.map_cons, List.flatten_cons, List.cons_append]
    have h1 : split_whitespace_aux
        (' ' :: (t ++ (ts.map (fun t => ' ' :: t)).flatten)) [] =
        split_whitespace_aux (t ++ (ts.map (fun t => ' ' :: t)).flatten) [] := rfl
    rw [h1, split_whitespace_aux_nonws t _ [] hws, List.append_nil,
      split_whitespace_aux_sep _ _ hshape (by simpa using ht), List.reverse_reverse]
    exact congrArg (t :: ·) (ih hrest)

/-- Every token produced by the tokenizer is non-empty and contains no
whitespace (stated for a general accumulator). -/
theorem split_whitespace_aux_tokens_sound (l : List Char) :
    ∀ acc, (∀ c ∈ acc, isWS c = false) →
      ∀ t ∈ split_whitespace_aux l acc, t ≠ [] ∧ ∀ c ∈ t, isWS c = false := by
  induction l with
  | nil =>
    intro acc hacc t ht
    by_cases h : acc = []
    · simp [split_whitespace_aux, h] at ht
    · simp [split_whitespace_aux, List.isEmpty_iff, h] at ht
      subst ht
      exact ⟨by simpa using h, fun c hc => hacc c (List.mem_reverse.mp hc)⟩
  | cons c cs ih =>
    intro acc hacc t ht
    by_cases hc : isWS c = true
    · by_cases h : acc = []
      · rw [show split_whitespace_aux (c :: cs) acc =
            split_whitespace_aux cs [] from by
            simp [split_whitespace_aux, hc, h]] at ht
        exact ih [] (by simp) t ht
      · rw [show split_whitespace_aux (c :: cs) acc =
            acc.reverse :: split_whitespace_aux cs [] from by
            simp [split_whitespace_aux, hc, List.isEmpty_iff, h]] at ht
        rcases List.mem_cons.mp ht with rfl | ht'
        · exact ⟨by simpa using h, fun c' hc' => hacc c' (List.mem_reverse.mp hc')⟩
        · exact ih [] (by simp) t ht'
    · rw [show split_whitespace_aux (c :: cs) acc =
          split_whitespace_aux cs (c :: acc) from by
          simp [split_whitespace_aux, hc]] at ht
      refine ih (c :: acc) ?_ t ht
      intro c' hc'
      rcases List.mem_cons.mp hc' with rfl | hm
      · simpa using hc
      · exact hacc c' hm

/-- C9: the CFLAGS/CXXFLAGS string handed to the elfutils configure step
never contains the token `-static`, and its token list is exactly the
ambient compiler tokens except `-static`, in their original order,
followed by the appended warning-suppression and include flags (the source
directory path is assumed whitespace-free, as a path interpolated into a
flag must be). -/
theorem elfutils_cflags_never_static (ambient srcDir : List Char) (aarch64 : Bool)
    (hsrc : ∀ c ∈ srcDir, isWS c = false) :
    split_whitespace (elfutils_cflags ambient srcDir aarch64) =
      (split_whitespace ambient).filter (fun t => t ≠ "-static".data) ++
      (if aarch64 then ["-Wno-error=stringop-overflow".data] else []) ++
      ["-I".data ++ srcDir ++ "/zlib/".data] ∧
    "-static".data ∉ split_whitespace (elfutils_cflags ambient srcDir aarch64) := by
  have hchar : split_whitespace (elfutils_cflags ambient srcDir aarch64) =
      (split_whitespace ambient).filter (fun t => t ≠ "-static".data) ++
      (if aarch64 then ["-Wno-error=stringop-overflow".data] else []) ++
      ["-I".data ++ srcDir ++ "/zlib/".data] := by
    have hform : elfutils_cflags ambient srcDir aarch64 =
        ((((split_whitespace ambient).filter (fun t => t ≠ "-static".data)) ++
          (if aarch64 then ["-Wno-error=stringop-overflow".data] else []) ++
          ["-I".data ++ srcDir ++ "/zlib/".data]).map (fun t => ' ' :: t)).flatten := by
      unfold elfutils_cflags
      cases aarch64 <;> simp
    rw [hform]
    apply split_whitespace_chunks
    intro t ht
    rcases List.mem_append.mp ht with h1 | h2
    · rcases List.mem_append.mp h1 with ha | hb
      · exact split_whitespace_aux_tokens_sound ambient [] (by simp) t
          (List.mem_of_mem_filter ha)
      · cases aarch64 with
        | false => simp at hb
        | true =>
          rcases List.mem_singleton.mp hb with rfl
          exact ⟨by decide, by decide⟩
    · rcases List.mem_singleton.mp h2 with rfl
      refine ⟨by simp, ?_⟩
      intro c hc
      rcases List.mem_append.mp hc with hx | hy
      · rcases List.mem_append.mp hx with hx1 | hx2
        · have e : "-I".data = ['-', 'I'] := rfl
          rw [e] at hx1
          fin_cases hx1 <;> decide
        · exact hsrc c hx2
      · have e : "/zlib/".data = ['/', 'z', 'l', 'i', 'b', '/'] := rfl
        rw [e] at hy
        fin_cases hy <;> decide
  refine ⟨hchar, ?_⟩
  rw [hchar]
  intro hmem
  rcases List.mem_append.mp hmem with h1 | h2
  · rcases List.mem_append.mp h1 with ha | hb
    · simp at ha
    · cases aarch64 with
      | false => simp at hb
      | true =>
        have := List.mem_singleton.mp hb
        exact absurd this (by decide)
  · have h3 := List.mem_singleton.mp h2
    have e1 : "-static".data = '-' :: 's' :: "tatic".data := rfl
    have e2 : "-I".data ++ srcDir ++ "/zlib/".data =
        '-' :: 'I' :: (srcDir ++ "/zlib/".data) := rfl
    rw [e1, e2] at h3
    injection h3 with _ h4
    injection h4 with h5 _
    exact absurd h5 (by decide)

/-- Witness for C9: a concrete ambient flag string containing `-static`,
with the token removed and everything else preserved in order. -/
theorem elfutils_cflags_never_static_witness :
    split_whitespace (elfutils_cflags "-O2 -static -fPIC".data "/s".data false) =
      ["-O2".data, "-fPIC".data, "-I".data ++ "/s".data ++ "/zlib/".data] ∧
    "-static".data ∉
      split_whitespace (elfutils_cflags "-O2 -static -fPIC".data "/s".data false) := by
  have h := elfutils_cflags_never_static "-O2 -static -fPIC".data "/s".data false (by decide)
  refine ⟨?_, h.2⟩
  rw [h.1]
  decide

/-- C7: for every program name, the tool-availability check succeeds
silently whenever the process could be started, whatever its exit code,
and fails with a message naming the missing tool exactly when the process
could not be started at all. -/
theorem pkg_check_spawn_only :
    (∀ pkg : String, ∀ code : Int, pkg_check pkg (some code) = Except.ok ()) ∧
    (∀ pkg : String, ∃ msg rest : String,
      pkg_check pkg none = Except.error msg ∧ msg = pkg ++ rest) := by
  exact ⟨fun pkg code => rfl, fun pkg =>
    ⟨pkg ++ " is required to compile libbpf-sys with the selected set of features",
     " is required to compile libbpf-sys with the selected set of features", rfl, rfl⟩⟩

end LibbpfSys
